import Mathlib

/-!
# conbee-exporter: the sensor field mapper

A shallow embedding of `main.go` of `mulbc/conbee-exporter`: the sensor snapshot
structure, the boolean encoder `Btoi`, the per-type dispatch of
`getStatesForSensor`, the publish loop of `getAllSensorStates` as the
sequence of gauge calls it makes, and the gateway discovery of `main`.

Modelling conventions.

* A Go `map[string]V` is a list of key/value pairs with pairwise distinct keys,
  built only through `GoMap.set` (the Go assignment `m[k] = v`) from the empty
  list (`make(map[string]V)`).  Go maps are unordered: the statements below
  speak of key *sets* and of lookups, the list order is an artefact.
* A `float64` is represented by the number it denotes.  Every `float64` the
  mapper produces is integer valued (`0`, `1`, or the conversion of a machine
  integer), so the carrier is `Int`; the conversion `float64(int)` rounds to a
  53 bit significand (nearest, ties to even) and is the identity up to `2^53`.
* `iso8601.Time` and its rendering by `fmt.Sprint` belong to libraries outside
  this repository: the time type is a parameter `T` of the snapshot and the
  rendering is a parameter `sprintTime : T → String` of the mapper.
* The metric registry behind `promauto.NewGaugeVec` is a library outside this
  repository as well: the publish loop is modelled by the calls it makes, in
  order, and nothing is said of what the registry does with them.
-/

namespace Conbee

/-! ## Go maps -/

/-- A Go `map[string]V`: key/value pairs, keys pairwise distinct. -/
abbrev GoMap (V : Type) := List (String × V)

namespace GoMap

/-- The assignment `m[k] = v`: overwrite the entry of `k`, or add one. -/
def set {V : Type} : GoMap V → String → V → GoMap V
  | [], k, v => [(k, v)]
  | (k', v') :: rest, k, v =>
    if k' = k then (k, v) :: rest else (k', v') :: set rest k v

/-- The lookup `v, ok := m[k]`. -/
def get? {V : Type} : GoMap V → String → Option V
  | [], _ => none
  | (k', v') :: rest, k => if k' = k then some v' else get? rest k

/-- The keys of the map (`maps.Keys`), in the list order of the model. -/
def keys {V : Type} (m : GoMap V) : List String := m.map Prod.fst

/-- The key set of the map. -/
def keySet {V : Type} (m : GoMap V) : Finset String := (keys m).toFinset

end GoMap

/-! ## Numbers and text -/

/-- The value of a `float64`, for the integer valued ones the mapper produces. -/
abbrev Float64 := Int

/-- The number of low bits a natural number has beyond 53: the least `e` with
`a / 2 ^ e < 2 ^ 53`, found by halving at most `fuel` times. -/
def excessBits : Nat → Nat → Nat
  | 0, _ => 0
  | fuel + 1, a => if a < 2 ^ 53 then 0 else excessBits fuel (a / 2) + 1

/-- Rounding of a natural number to a 53 bit significand, nearest, ties to even. -/
def roundNat53 (a : Nat) : Nat :=
  if a < 2 ^ 53 then a
  else
    let e := excessBits a a
    let q := a / 2 ^ e
    let r := a % 2 ^ e
    let half := 2 ^ (e - 1)
    if r > half ∨ (r = half ∧ q % 2 = 1) then (q + 1) * 2 ^ e else q * 2 ^ e

/-- The Go conversion `float64(n)` of a machine integer. -/
def float64 (n : Int) : Float64 :=
  if 0 ≤ n then Int.ofNat (roundNat53 n.natAbs) else -Int.ofNat (roundNat53 n.natAbs)

/-- The source's `Btoi`: `1` for `true`, `0` for `false`. -/
def Btoi (b : Bool) : Float64 :=
  if b then 1 else 0

/-- The decimal rendering of an integer (`%d`). -/
def sprintInt (n : Int) : String := toString n

/-- The result of `fmt.Sprint` on a string: the string. -/
def sprintString (s : String) : String := s

/-- The result of `fmt.Sprint` on a `[]int`: the elements in decimal, separated
by single spaces, between square brackets. -/
def sprintIntSlice (xs : List Int) : String :=
  "[" ++ " ".intercalate (xs.map sprintInt) ++ "]"

/-! ## The sensor snapshot -/

/-- The `State` struct of `conbeeSensor`; `T` stands for `iso8601.Time`. -/
structure conbeeSensorState (T : Type) where
  Airquality : String
  Airqualityppb : Fin 65536
  Alarm : Bool
  Angle : Int
  Buttonevent : Int
  Carbonmonoxide : Bool
  Consumption : Int
  Current : Int
  Dark : Bool
  Daylight : Bool
  Errorcode : String
  Eventduration : Int
  Fanmode : String
  Fire : Bool
  Floortemperature : Int
  Gesture : Int
  Heating : Bool
  Humidity : Int
  Lastset : T
  Lastupdated : T
  Lightlevel : Int
  Localtime : T
  Lowbattery : Bool
  Lux : Int
  Mountingmodeactive : Bool
  On : Bool
  Open : Bool
  Orientation : List Int
  Power : Int
  Presence : Bool
  Pressure : Int
  Tampered : Bool
  Temperature : Int
  Tiltangle : Int
  Utc : T
  Valve : Int
  Vibration : Bool
  Vibrationstrength : Int
  Voltage : Int
  Water : Bool
  Windowopen : String
  X : Int
  Y : Int

/-- The `Config` struct of `conbeeSensor`. -/
structure conbeeSensorConfig where
  Battery : Int
  Configured : Bool
  Enrolled : Int
  Offset : Int
  On : Bool
  Reachable : Bool
  SunriseOffset : Int
  SunsetOffset : Int
  Temperature : Int

/-- The source's `conbeeSensor`; the field `Type` is written `Type_`. -/
structure conbeeSensor (T : Type) where
  Name : String
  Etag : String
  Manufacturername : String
  Modelid : String
  Swversion : String
  Type_ : String
  Uniqueid : String
  State : conbeeSensorState T
  Config : conbeeSensorConfig

/-! ## The mapper -/

/-- The source's `getStatesForSensor`: the measurement map and the label map of
one snapshot, by dispatch on the type tag. -/
def getStatesForSensor {T : Type} (sprintTime : T → String) (sensor : conbeeSensor T) :
    GoMap Float64 × GoMap String :=
  let states : GoMap Float64 := []
  let labels : GoMap String := []
  match sensor.Type_ with
  | "ZHAAirQuality" =>
    let labels := labels.set "Airquality" sensor.State.Airquality
    let states := states.set "Airqualityppb" (float64 (Int.ofNat sensor.State.Airqualityppb.val))
    (states, labels)
  | "ZHAAlarm" =>
    let states := states.set "Alarm" (Btoi sensor.State.Alarm)
    let labels := labels.set "Lastupdated" (sprintTime sensor.State.Lastupdated)
    let states := states.set "Lowbattery" (Btoi sensor.State.Lowbattery)
    let states := states.set "Tampered" (Btoi sensor.State.Tampered)
    (states, labels)
  | "ZHACarbonMonoxide" =>
    let states := states.set "Carbonmonoxide" (Btoi sensor.State.Carbonmonoxide)
    let labels := labels.set "Lastupdated" (sprintTime sensor.State.Lastupdated)
    let states := states.set "Lowbattery" (Btoi sensor.State.Lowbattery)
    let states := states.set "Tampered" (Btoi sensor.State.Tampered)
    (states, labels)
  | "ZHAConsumption" =>
    let states := states.set "Consumption" (float64 sensor.State.Consumption)
    let labels := labels.set "Lastupdated" (sprintTime sensor.State.Lastupdated)
    let states := states.set "Power" (float64 sensor.State.Power)
    (states, labels)
  | "ZHAFire" =>
    let states := states.set "Fire" (Btoi sensor.State.Fire)
    let labels := labels.set "Lastupdated" (sprintTime sensor.State.Lastupdated)
    let states := states.set "Lowbattery" (Btoi sensor.State.Lowbattery)
    let states := states.set "Tampered" (Btoi sensor.State.Tampered)
    (states, labels)
  | "ZHAHumidity" =>
    let states := states.set "Humidity" (float64 sensor.State.Humidity)
    let labels := labels.set "Lastupdated" (sprintTime sensor.State.Lastupdated)
    (states, labels)
  | "ZHALightLevel" =>
    let states := states.set "Lux" (float64 sensor.State.Lux)
    let labels := labels.set "Lastupdated" (sprintTime sensor.State.Lastupdated)
    let states := states.set "Lightlevel" (float64 sensor.State.Lightlevel)
    let states := states.set "Dark" (Btoi sensor.State.Dark)
    let states := states.set "Daylight" (Btoi sensor.State.Daylight)
    (states, labels)
  | "ZHAOpenClose" =>
    let labels := labels.set "Lastupdated" (sprintTime sensor.State.Lastupdated)
    let states := states.set "Lowbattery" (Btoi sensor.State.Lowbattery)
    let states := states.set "Open" (Btoi sensor.State.Open)
    let states := states.set "Tampered" (Btoi sensor.State.Tampered)
    (states, labels)
  | "ZHAPower" =>
    let states := states.set "Current" (float64 sensor.State.Current)
    let labels := labels.set "Lastupdated" (sprintTime sensor.State.Lastupdated)
    let states := states.set "Power" (float64 sensor.State.Power)
    let states := states.set "Voltage" (float64 sensor.State.Voltage)
    (states, labels)
  | "ZHAPresence" =>
    let labels := labels.set "Lastupdated" (sprintTime sensor.State.Lastupdated)
    let states := states.set "Lowbattery" (Btoi sensor.State.Lowbattery)
    let states := states.set "Presence" (Btoi sensor.State.Presence)
    let states := states.set "Tampered" (Btoi sensor.State.Tampered)
    (states, labels)
  | "ZHAPressure" =>
    let states := states.set "Pressure" (float64 sensor.State.Pressure)
    let labels := labels.set "Lastupdated" (sprintTime sensor.State.Lastupdated)
    (states, labels)
  | "ZHASwitch" =>
    let states := states.set "Buttonevent" (float64 sensor.State.Buttonevent)
    let labels := labels.set "Lastupdated" (sprintTime sensor.State.Lastupdated)
    let states := states.set "Gesture" (float64 sensor.State.Gesture)
    let states := states.set "Eventduration" (float64 sensor.State.Eventduration)
    let states := states.set "X" (float64 sensor.State.X)
    let states := states.set "Y" (float64 sensor.State.Y)
    let states := states.set "Angle" (float64 sensor.State.Angle)
    (states, labels)
  | "ZHATemperature" =>
    let states := states.set "Temperature" (float64 sensor.State.Temperature)
    let labels := labels.set "Lastupdated" (sprintTime sensor.State.Lastupdated)
    (states, labels)
  | "ZHAThermostat" =>
    let states := states.set "On" (Btoi sensor.State.On)
    let labels := labels.set "Errorcode" (sprintString sensor.State.Errorcode)
    let labels := labels.set "Fanmode" (sprintString sensor.State.Fanmode)
    let states := states.set "Floortemperature" (float64 sensor.State.Floortemperature)
    let states := states.set "Heating" (Btoi sensor.State.Heating)
    let labels := labels.set "Lastupdated" (sprintTime sensor.State.Lastupdated)
    let states := states.set "Mountingmodeactive" (Btoi sensor.State.Mountingmodeactive)
    let states := states.set "Temperature" (float64 sensor.State.Temperature)
    let states := states.set "Valve" (float64 sensor.State.Valve)
    let labels := labels.set "Windowopen" (sprintString sensor.State.Windowopen)
    (states, labels)
  | "ZHATime" =>
    let labels := labels.set "Lastset" (sprintTime sensor.State.Lastset)
    let labels := labels.set "Lastupdated" (sprintTime sensor.State.Lastupdated)
    let labels := labels.set "Localtime" (sprintTime sensor.State.Localtime)
    let labels := labels.set "Utc" (sprintTime sensor.State.Utc)
    (states, labels)
  | "ZHAVibration" =>
    let states := states.set "Vibration" (Btoi sensor.State.Vibration)
    let labels := labels.set "Lastupdated" (sprintTime sensor.State.Lastupdated)
    let labels := labels.set "Orientation" (sprintIntSlice sensor.State.Orientation)
    let states := states.set "Tiltangle" (float64 sensor.State.Tiltangle)
    let states := states.set "Vibrationstrength" (float64 sensor.State.Vibrationstrength)
    (states, labels)
  | "ZHAWater" =>
    let states := states.set "Water" (Btoi sensor.State.Water)
    let labels := labels.set "Lastupdated" (sprintTime sensor.State.Lastupdated)
    let states := states.set "Lowbattery" (Btoi sensor.State.Lowbattery)
    let states := states.set "Tampered" (Btoi sensor.State.Tampered)
    (states, labels)
  | _ => (states, labels)

/-- The label step of the loop body of `getAllSensorStates`:
`labels["Name"] = sensor.Name; labels["Type"] = sensor.Type` on the mapper's
label map. -/
def publishedLabels {T : Type} (sprintTime : T → String) (sensor : conbeeSensor T) :
    GoMap String :=
  let labels := (getStatesForSensor sprintTime sensor).2
  let labels := labels.set "Name" sensor.Name
  let labels := labels.set "Type" sensor.Type_
  labels

/-! ## The publish loop -/

/-- The source's `promNamespace`. -/
def promNamespace : String := "conbee"

/-- One pass of the inner loop body of `getAllSensorStates`: the call
`promauto.NewGaugeVec(GaugeOpts{Namespace, Subsystem, Name}, labelNames)`
followed by `.With(labels).Set(value)`. -/
structure GaugeCall where
  Namespace : String
  Subsystem : String
  Name : String
  labelNames : List String
  labels : GoMap String
  value : Float64

/-- The body of the outer loop of `getAllSensorStates` for one map entry
`(ID, sensor)`: one gauge call per entry of the measurement map. -/
def sensorGaugeCalls {T : Type} (sprintTime : T → String) (ID : String)
    (sensor : conbeeSensor T) : List GaugeCall :=
  let states := (getStatesForSensor sprintTime sensor).1
  let labels := publishedLabels sprintTime sensor
  states.map fun kv =>
    { Namespace := promNamespace, Subsystem := ID, Name := kv.1,
      labelNames := labels.keys, labels := labels, value := kv.2 }

/-- The source's `getAllSensorStates`, as the sequence of gauge calls it makes.
`allSensors` is the sensor map as `getJson` left it, in the order the `range`
visits it, and `err` is the error `getJson` returned: it is logged, and the loop
runs all the same. -/
def getAllSensorStates {T : Type} (sprintTime : T → String)
    (allSensors : List (String × conbeeSensor T)) (_err : Option String) : List GaugeCall :=
  allSensors.flatMap fun p => sensorGaugeCalls sprintTime p.1 p.2

/-! ## The rule table of the specification -/

/-- One line of the specification's table: a type name (without the `ZHA`
prefix), its measurement names (marked M) and its label names (marked L). -/
structure SpecRule where
  name : String
  measurements : List String
  labels : List String

/-- The specification's table "known type → output fields", line by line. -/
def specTable : List SpecRule :=
  [ ⟨"AirQuality", ["Airqualityppb"], ["Airquality"]⟩,
    ⟨"Alarm", ["Alarm", "Lowbattery", "Tampered"], ["Lastupdated"]⟩,
    ⟨"CarbonMonoxide", ["Carbonmonoxide", "Lowbattery", "Tampered"], ["Lastupdated"]⟩,
    ⟨"Consumption", ["Consumption", "Power"], ["Lastupdated"]⟩,
    ⟨"Fire", ["Fire", "Lowbattery", "Tampered"], ["Lastupdated"]⟩,
    ⟨"Humidity", ["Humidity"], ["Lastupdated"]⟩,
    ⟨"LightLevel", ["Lux", "Lightlevel", "Dark", "Daylight"], ["Lastupdated"]⟩,
    ⟨"OpenClose", ["Lowbattery", "Open", "Tampered"], ["Lastupdated"]⟩,
    ⟨"Power", ["Current", "Power", "Voltage"], ["Lastupdated"]⟩,
    ⟨"Presence", ["Lowbattery", "Presence", "Tampered"], ["Lastupdated"]⟩,
    ⟨"Pressure", ["Pressure"], ["Lastupdated"]⟩,
    ⟨"Switch", ["Buttonevent", "Gesture", "Eventduration", "X", "Y", "Angle"], ["Lastupdated"]⟩,
    ⟨"Temperature", ["Temperature"], ["Lastupdated"]⟩,
    ⟨"Thermostat", ["On", "Floortemperature", "Heating", "Mountingmodeactive", "Temperature",
        "Valve"], ["Errorcode", "Fanmode", "Lastupdated", "Windowopen"]⟩,
    ⟨"Time", [], ["Lastset", "Lastupdated", "Localtime", "Utc"]⟩,
    ⟨"Vibration", ["Vibration", "Tiltangle", "Vibrationstrength"], ["Lastupdated", "Orientation"]⟩,
    ⟨"Water", ["Water", "Lowbattery", "Tampered"], ["Lastupdated"]⟩ ]

/-- The type tag of a line of the table: `ZHA` followed by the name. -/
def SpecRule.tag (r : SpecRule) : String := "ZHA" ++ r.name

/-! ## Startup: gateway discovery -/

/-- The `discoverResult` struct declared in `main`. -/
structure discoverResult where
  Internalipaddress : String
  Internalport : Int
  Name : String

/-- The result of `fmt.Sprintf("%s:%d", ip, port)`. -/
def sprintfHostPort (ip : String) (port : Int) : String :=
  ip ++ ":" ++ sprintInt port

/-- How the startup part of `main` ends: in one of its four `log.Fatal` calls,
or by reaching `recordMetrics()` with `*conbeeURI` holding the given address. -/
inductive Startup where
  | fatalNoApiKey
  | fatalDiscover
  | fatalReadBody
  | fatalNoConbee
  | started (conbeeURI : String)
  deriving DecidableEq

/-- The source's `main`, up to the call of `recordMetrics`.  `flagURI` is the
value of the flag `-conbee-uri`, `apiKey` the environment variable, `getErr` and
`readErr` the errors of `http.Get` and `ioutil.ReadAll`, `detectedResults` the
slice as `json.Unmarshal` left it (it starts empty) and `parseErr` the error of
`json.Unmarshal`, which is logged as a warning and nothing more. -/
def main (flagURI apiKey : String) (getErr readErr : Option String)
    (detectedResults : List discoverResult) (_parseErr : Option String) : Startup :=
  if apiKey = "" then Startup.fatalNoApiKey
  else if flagURI = "" then
    if getErr.isSome then Startup.fatalDiscover
    else if readErr.isSome then Startup.fatalReadBody
    else
      match detectedResults with
      | [] => Startup.fatalNoConbee
      | first :: _ =>
        Startup.started (sprintfHostPort first.Internalipaddress first.Internalport)
  else Startup.started flagURI

/-! ## The state fields a rule reads -/

/-- Agreement of two states on the fields that the rule of the given type tag
reads in `getStatesForSensor`, case by case as the `switch` reads them; a tag
without a rule reads nothing. -/
def readFieldsAgree {T : Type} (tag : String) (a b : conbeeSensorState T) : Prop :=
  match tag with
  | "ZHAAirQuality" => a.Airquality = b.Airquality ∧ a.Airqualityppb = b.Airqualityppb
  | "ZHAAlarm" =>
    a.Alarm = b.Alarm ∧ a.Lastupdated = b.Lastupdated ∧ a.Lowbattery = b.Lowbattery ∧
      a.Tampered = b.Tampered
  | "ZHACarbonMonoxide" =>
    a.Carbonmonoxide = b.Carbonmonoxide ∧ a.Lastupdated = b.Lastupdated ∧
      a.Lowbattery = b.Lowbattery ∧ a.Tampered = b.Tampered
  | "ZHAConsumption" =>
    a.Consumption = b.Consumption ∧ a.Lastupdated = b.Lastupdated ∧ a.Power = b.Power
  | "ZHAFire" =>
    a.Fire = b.Fire ∧ a.Lastupdated = b.Lastupdated ∧ a.Lowbattery = b.Lowbattery ∧
      a.Tampered = b.Tampered
  | "ZHAHumidity" => a.Humidity = b.Humidity ∧ a.Lastupdated = b.Lastupdated
  | "ZHALightLevel" =>
    a.Lux = b.Lux ∧ a.Lastupdated = b.Lastupdated ∧ a.Lightlevel = b.Lightlevel ∧
      a.Dark = b.Dark ∧ a.Daylight = b.Daylight
  | "ZHAOpenClose" =>
    a.Lastupdated = b.Lastupdated ∧ a.Lowbattery = b.Lowbattery ∧ a.Open = b.Open ∧
      a.Tampered = b.Tampered
  | "ZHAPower" =>
    a.Current = b.Current ∧ a.Lastupdated = b.Lastupdated ∧ a.Power = b.Power ∧
      a.Voltage = b.Voltage
  | "ZHAPresence" =>
    a.Lastupdated = b.Lastupdated ∧ a.Lowbattery = b.Lowbattery ∧ a.Presence = b.Presence ∧
      a.Tampered = b.Tampered
  | "ZHAPressure" => a.Pressure = b.Pressure ∧ a.Lastupdated = b.Lastupdated
  | "ZHASwitch" =>
    a.Buttonevent = b.Buttonevent ∧ a.Lastupdated = b.Lastupdated ∧ a.Gesture = b.Gesture ∧
      a.Eventduration = b.Eventduration ∧ a.X = b.X ∧ a.Y = b.Y ∧ a.Angle = b.Angle
  | "ZHATemperature" => a.Temperature = b.Temperature ∧ a.Lastupdated = b.Lastupdated
  | "ZHAThermostat" =>
    a.On = b.On ∧ a.Errorcode = b.Errorcode ∧ a.Fanmode = b.Fanmode ∧
      a.Floortemperature = b.Floortemperature ∧ a.Heating = b.Heating ∧
      a.Lastupdated = b.Lastupdated ∧ a.Mountingmodeactive = b.Mountingmodeactive ∧
      a.Temperature = b.Temperature ∧ a.Valve = b.Valve ∧ a.Windowopen = b.Windowopen
  | "ZHATime" =>
    a.Lastset = b.Lastset ∧ a.Lastupdated = b.Lastupdated ∧ a.Localtime = b.Localtime ∧
      a.Utc = b.Utc
  | "ZHAVibration" =>
    a.Vibration = b.Vibration ∧ a.Lastupdated = b.Lastupdated ∧
      a.Orientation = b.Orientation ∧ a.Tiltangle = b.Tiltangle ∧
      a.Vibrationstrength = b.Vibrationstrength
  | "ZHAWater" =>
    a.Water = b.Water ∧ a.Lastupdated = b.Lastupdated ∧ a.Lowbattery = b.Lowbattery ∧
      a.Tampered = b.Tampered
  | _ => True

instance readFieldsAgree.decidable {T : Type} [DecidableEq T] (tag : String)
    (a b : conbeeSensorState T) : Decidable (readFieldsAgree tag a b) := by
  unfold readFieldsAgree
  split <;> infer_instance

/-- The identity of a gauge: namespace, subsystem and name of its options. -/
def GaugeCall.identity (c : GaugeCall) : String × String × String :=
  (c.Namespace, c.Subsystem, c.Name)

/-! ## Test data -/

/-- The state with every field at its Go zero value; `t0` is the zero time. -/
def zeroState {T : Type} (t0 : T) : conbeeSensorState T :=
  { Airquality := "", Airqualityppb := 0, Alarm := false, Angle := 0, Buttonevent := 0,
    Carbonmonoxide := false, Consumption := 0, Current := 0, Dark := false,
    Daylight := false, Errorcode := "", Eventduration := 0, Fanmode := "", Fire := false,
    Floortemperature := 0, Gesture := 0, Heating := false, Humidity := 0, Lastset := t0,
    Lastupdated := t0, Lightlevel := 0, Localtime := t0, Lowbattery := false, Lux := 0,
    Mountingmodeactive := false, On := false, Open := false, Orientation := [],
    Power := 0, Presence := false, Pressure := 0, Tampered := false, Temperature := 0,
    Tiltangle := 0, Utc := t0, Valve := 0, Vibration := false, Vibrationstrength := 0,
    Voltage := 0, Water := false, Windowopen := "", X := 0, Y := 0 }

/-- The config with every field at its Go zero value. -/
def zeroConfig : conbeeSensorConfig :=
  { Battery := 0, Configured := false, Enrolled := 0, Offset := 0, On := false,
    Reachable := false, SunriseOffset := 0, SunsetOffset := 0, Temperature := 0 }

/-- A snapshot with the given name, type tag and state, the rest zero. -/
def mkSensor {T : Type} (name tag : String) (st : conbeeSensorState T) : conbeeSensor T :=
  { Name := name, Etag := "", Manufacturername := "", Modelid := "", Swversion := "",
    Type_ := tag, Uniqueid := "", State := st, Config := zeroConfig }

/-! ## Lemmas on Go maps -/

theorem GoMap.get?_set_self {V : Type} (m : GoMap V) (k : String) (v : V) :
    (m.set k v).get? k = some v := by
  induction m with
  | nil => simp [GoMap.set, GoMap.get?]
  | cons p rest ih =>
    obtain ⟨k', v'⟩ := p
    by_cases h : k' = k
    · simp [GoMap.set, GoMap.get?, h]
    · simp [GoMap.set, GoMap.get?, h, ih]

theorem GoMap.get?_set_of_ne {V : Type} (m : GoMap V) (k j : String) (v : V) (h : k ≠ j) :
    (m.set k v).get? j = m.get? j := by
  induction m with
  | nil => simp [GoMap.set, GoMap.get?, h]
  | cons p rest ih =>
    obtain ⟨k', v'⟩ := p
    by_cases hk : k' = k
    · subst hk
      simp [GoMap.set, GoMap.get?, h]
    · simp [GoMap.set, GoMap.get?, hk, ih]

/-! ## Lemmas on the mapper -/

theorem specTable_length : specTable.length = 17 := rfl

theorem specTable_tags_nodup : (specTable.map SpecRule.tag).Nodup := by decide

theorem float64_of_small (n : Int) (h : n.natAbs < 2 ^ 53) : float64 n = n := by
  unfold float64 roundNat53
  rw [if_pos h]
  split
  · rename_i h0
    simpa using Int.natAbs_of_nonneg h0
  · rename_i h0
    have h1 : n < 0 := not_le.mp h0
    have h2 : ((n.natAbs : Nat) : Int) = -n := Int.ofNat_natAbs_of_nonpos (le_of_lt h1)
    simp [h2]

theorem state_keys_of_type {T : Type} (sprintTime : T → String) (s1 s2 : conbeeSensor T)
    (h : s1.Type_ = s2.Type_) :
    (getStatesForSensor sprintTime s1).1.keys = (getStatesForSensor sprintTime s2).1.keys := by
  unfold getStatesForSensor
  rw [h]
  split <;> rfl

theorem label_keys_of_type {T : Type} (sprintTime : T → String) (s1 s2 : conbeeSensor T)
    (h : s1.Type_ = s2.Type_) :
    (getStatesForSensor sprintTime s1).2.keys = (getStatesForSensor sprintTime s2).2.keys := by
  unfold getStatesForSensor
  rw [h]
  split <;> rfl

theorem labels_get?_Name {T : Type} (sprintTime : T → String) (s : conbeeSensor T) :
    (getStatesForSensor sprintTime s).2.get? "Name" = none := by
  unfold getStatesForSensor
  split <;> simp [GoMap.set, GoMap.get?]

theorem labels_get?_Type {T : Type} (sprintTime : T → String) (s : conbeeSensor T) :
    (getStatesForSensor sprintTime s).2.get? "Type" = none := by
  unfold getStatesForSensor
  split <;> simp [GoMap.set, GoMap.get?]

theorem publishedLabels_temperature {T : Type} (sprintTime : T → String) (s : conbeeSensor T)
    (h : s.Type_ = "ZHATemperature") :
    publishedLabels sprintTime s =
      [("Lastupdated", sprintTime s.State.Lastupdated), ("Name", s.Name),
        ("Type", "ZHATemperature")] := by
  simp [publishedLabels, getStatesForSensor, h, GoMap.set]

theorem GoMap.get?_eq_none_iff {V : Type} (m : GoMap V) (k : String) :
    m.get? k = none ↔ k ∉ m.keys := by
  induction m with
  | nil => simp [GoMap.get?, GoMap.keys]
  | cons p rest ih =>
    obtain ⟨k', v'⟩ := p
    by_cases h : k' = k
    · simp [GoMap.get?, GoMap.keys, h]
    · have h' : ¬ k = k' := fun e => h e.symm
      simp only [GoMap.keys] at ih
      simp [GoMap.get?, GoMap.keys, h, h', ih]

theorem GoMap.keys_set_of_not_mem {V : Type} (m : GoMap V) (k : String) (v : V)
    (h : k ∉ m.keys) : (m.set k v).keys = m.keys ++ [k] := by
  induction m with
  | nil => simp [GoMap.set, GoMap.keys]
  | cons p rest ih =>
    obtain ⟨k', v'⟩ := p
    simp only [GoMap.keys, List.map_cons, List.mem_cons, not_or] at h ih ⊢
    have hk : ¬ k' = k := fun e => h.1 e.symm
    simp [GoMap.set, hk, ih h.2]

theorem state_keys_nodup {T : Type} (sprintTime : T → String) (s : conbeeSensor T) :
    (getStatesForSensor sprintTime s).1.keys.Nodup := by
  unfold getStatesForSensor
  split <;> simp [GoMap.set, GoMap.keys]

theorem label_keys_nodup {T : Type} (sprintTime : T → String) (s : conbeeSensor T) :
    (getStatesForSensor sprintTime s).2.keys.Nodup := by
  unfold getStatesForSensor
  split <;> simp [GoMap.set, GoMap.keys]

theorem publishedLabels_keys {T : Type} (sprintTime : T → String) (s : conbeeSensor T) :
    (publishedLabels sprintTime s).keys =
      (getStatesForSensor sprintTime s).2.keys ++ ["Name", "Type"] := by
  have hN : "Name" ∉ (getStatesForSensor sprintTime s).2.keys :=
    (GoMap.get?_eq_none_iff _ _).mp (labels_get?_Name sprintTime s)
  have hT : "Type" ∉ (getStatesForSensor sprintTime s).2.keys :=
    (GoMap.get?_eq_none_iff _ _).mp (labels_get?_Type sprintTime s)
  have h1 := GoMap.keys_set_of_not_mem (getStatesForSensor sprintTime s).2 "Name" s.Name hN
  have hT' : "Type" ∉ ((getStatesForSensor sprintTime s).2.set "Name" s.Name).keys := by
    rw [h1]
    simp [hT]
  unfold publishedLabels
  simp only []
  rw [GoMap.keys_set_of_not_mem _ "Type" s.Type_ hT', h1]
  simp

theorem sensorGaugeCalls_subsystem {T : Type} (sprintTime : T → String) (ID : String)
    (s : conbeeSensor T) : ∀ c ∈ sensorGaugeCalls sprintTime ID s, c.Subsystem = ID := by
  intro c hc
  simp only [sensorGaugeCalls, List.mem_map] at hc
  obtain ⟨kv, _, rfl⟩ := hc
  rfl

theorem filter_calls_self {T : Type} (sprintTime : T → String) (ID : String)
    (s : conbeeSensor T) :
    (sensorGaugeCalls sprintTime ID s).filter (fun c => decide (c.Subsystem = ID)) =
      sensorGaugeCalls sprintTime ID s := by
  rw [List.filter_eq_self]
  intro c hc
  simp [sensorGaugeCalls_subsystem sprintTime ID s c hc]

theorem filter_calls_of_ne {T : Type} (sprintTime : T → String) (ID ID' : String)
    (s : conbeeSensor T) (h : ID' ≠ ID) :
    (sensorGaugeCalls sprintTime ID' s).filter (fun c => decide (c.Subsystem = ID)) = [] := by
  rw [List.filter_eq_nil_iff]
  intro c hc
  simp [sensorGaugeCalls_subsystem sprintTime ID' s c hc, h]

theorem filter_all_of_not_mem {T : Type} (sprintTime : T → String) (ID : String)
    (allSensors : List (String × conbeeSensor T)) (err : Option String)
    (h : ID ∉ allSensors.map Prod.fst) :
    (getAllSensorStates sprintTime allSensors err).filter
      (fun c => decide (c.Subsystem = ID)) = [] := by
  induction allSensors with
  | nil => simp [getAllSensorStates]
  | cons p rest ih =>
    simp only [List.map_cons, List.mem_cons, not_or] at h
    have hne : p.1 ≠ ID := fun e => h.1 e.symm
    simp only [getAllSensorStates, List.flatMap_cons, List.filter_append] at ih ⊢
    rw [filter_calls_of_ne sprintTime ID p.1 p.2 hne, ih h.2]
    rfl

theorem filter_all_of_mem {T : Type} (sprintTime : T → String) (ID : String)
    (s : conbeeSensor T) (allSensors : List (String × conbeeSensor T)) (err : Option String)
    (hnd : (allSensors.map Prod.fst).Nodup) (hmem : (ID, s) ∈ allSensors) :
    (getAllSensorStates sprintTime allSensors err).filter
      (fun c => decide (c.Subsystem = ID)) = sensorGaugeCalls sprintTime ID s := by
  induction allSensors with
  | nil => cases hmem
  | cons p rest ih =>
    simp only [List.map_cons, List.nodup_cons] at hnd
    have hsplit : (getAllSensorStates sprintTime (p :: rest) err).filter
        (fun c => decide (c.Subsystem = ID)) =
        (sensorGaugeCalls sprintTime p.1 p.2).filter (fun c => decide (c.Subsystem = ID)) ++
        (getAllSensorStates sprintTime rest err).filter
          (fun c => decide (c.Subsystem = ID)) := by
      simp [getAllSensorStates, List.filter_append]
    rw [hsplit]
    rcases List.mem_cons.mp hmem with hp | hr
    · subst hp
      rw [filter_calls_self, filter_all_of_not_mem sprintTime ID rest err hnd.1]
      simp
    · have hID : ID ∈ rest.map Prod.fst := List.mem_map.mpr ⟨(ID, s), hr, rfl⟩
      have hne : p.1 ≠ ID := fun e => hnd.1 (e ▸ hID)
      rw [filter_calls_of_ne sprintTime ID p.1 p.2 hne, ih hnd.2 hr]
      rfl

theorem publishedLabels_get?_of_mem {T : Type} (sprintTime : T → String) (s : conbeeSensor T)
    (k : String) (hk : k ∈ (getStatesForSensor sprintTime s).2.keys) :
    (publishedLabels sprintTime s).get? k = (getStatesForSensor sprintTime s).2.get? k := by
  have hN : "Name" ∉ (getStatesForSensor sprintTime s).2.keys :=
    (GoMap.get?_eq_none_iff _ _).mp (labels_get?_Name sprintTime s)
  have hT : "Type" ∉ (getStatesForSensor sprintTime s).2.keys :=
    (GoMap.get?_eq_none_iff _ _).mp (labels_get?_Type sprintTime s)
  have h1 : "Name" ≠ k := fun e => hN (e ▸ hk)
  have h2 : "Type" ≠ k := fun e => hT (e ▸ hk)
  unfold publishedLabels
  simp only []
  rw [GoMap.get?_set_of_ne _ "Type" k _ h2, GoMap.get?_set_of_ne _ "Name" k _ h1]

theorem publishedLabels_keys_nodup {T : Type} (sprintTime : T → String) (s : conbeeSensor T) :
    (publishedLabels sprintTime s).keys.Nodup := by
  have hN : "Name" ∉ (getStatesForSensor sprintTime s).2.keys :=
    (GoMap.get?_eq_none_iff _ _).mp (labels_get?_Name sprintTime s)
  have hT : "Type" ∉ (getStatesForSensor sprintTime s).2.keys :=
    (GoMap.get?_eq_none_iff _ _).mp (labels_get?_Type sprintTime s)
  rw [publishedLabels_keys, List.nodup_append]
  refine ⟨label_keys_nodup sprintTime s, by decide, ?_⟩
  intro k hk hk2
  simp only [List.mem_cons, List.mem_singleton, List.not_mem_nil, or_false] at hk2
  rcases hk2 with rfl | rfl
  · exact hN hk
  · exact hT hk

theorem getAllSensorStates_subsystem_mem {T : Type} (sprintTime : T → String)
    (allSensors : List (String × conbeeSensor T)) (err : Option String) :
    ∀ c ∈ getAllSensorStates sprintTime allSensors err, c.Subsystem ∈ allSensors.map Prod.fst := by
  intro c hc
  unfold getAllSensorStates at hc
  obtain ⟨p, hp, hcp⟩ := List.mem_flatMap.mp hc
  rw [sensorGaugeCalls_subsystem sprintTime p.1 p.2 c hcp]
  exact List.mem_map.mpr ⟨p, hp, rfl⟩

theorem sensorGaugeCalls_identity_nodup {T : Type} (sprintTime : T → String) (ID : String)
    (s : conbeeSensor T) :
    ((sensorGaugeCalls sprintTime ID s).map GaugeCall.identity).Nodup := by
  have h : (sensorGaugeCalls sprintTime ID s).map GaugeCall.identity =
      (getStatesForSensor sprintTime s).1.keys.map (fun k => (promNamespace, ID, k)) := by
    simp [sensorGaugeCalls, GaugeCall.identity, GoMap.keys, Function.comp_def]
  rw [h]
  refine (state_keys_nodup sprintTime s).map ?_
  intro a b hab
  simpa using hab

/-! ## The claims -/

/-- C1: for a snapshot whose type tag is `ZHA` followed by the name of a line of
the specification's table, the key set of the measurement map returned by
`getStatesForSensor` is exactly the set of names marked M on that line. -/
theorem measurement_keys_match_spec_table {T : Type} (sprintTime : T → String)
    (s : conbeeSensor T) (r : SpecRule) (hr : r ∈ specTable) (ht : s.Type_ = r.tag) :
    (getStatesForSensor sprintTime s).1.keySet = r.measurements.toFinset := by
  simp only [specTable] at hr
  fin_cases hr <;> simp [SpecRule.tag] at ht <;>
    simp [getStatesForSensor, ht, GoMap.set, GoMap.keySet, GoMap.keys]

theorem measurement_keys_match_spec_table_witness :
    (getStatesForSensor (fun t : String => t)
        (mkSensor "bath" "ZHAThermostat" (zeroState ""))).1.keySet =
      ["On", "Floortemperature", "Heating", "Mountingmodeactive", "Temperature",
        "Valve"].toFinset :=
  measurement_keys_match_spec_table (fun t : String => t)
    (mkSensor "bath" "ZHAThermostat" (zeroState ""))
    ⟨"Thermostat", ["On", "Floortemperature", "Heating", "Mountingmodeactive", "Temperature",
        "Valve"], ["Errorcode", "Fanmode", "Lastupdated", "Windowopen"]⟩
    (by simp [specTable]) (by decide)

/-- C2: for a snapshot whose type tag is `ZHA` followed by the name of a line of
the specification's table, the key set of the label map returned by
`getStatesForSensor` is exactly the set of names marked L on that line. -/
theorem label_keys_match_spec_table {T : Type} (sprintTime : T → String)
    (s : conbeeSensor T) (r : SpecRule) (hr : r ∈ specTable) (ht : s.Type_ = r.tag) :
    (getStatesForSensor sprintTime s).2.keySet = r.labels.toFinset := by
  simp only [specTable] at hr
  fin_cases hr <;> simp [SpecRule.tag] at ht <;>
    simp [getStatesForSensor, ht, GoMap.set, GoMap.keySet, GoMap.keys]

theorem label_keys_match_spec_table_witness :
    (getStatesForSensor (fun t : String => t)
        (mkSensor "clock" "ZHATime" (zeroState "never"))).2.keySet =
      ["Lastset", "Lastupdated", "Localtime", "Utc"].toFinset :=
  label_keys_match_spec_table (fun t : String => t)
    (mkSensor "clock" "ZHATime" (zeroState "never"))
    ⟨"Time", [], ["Lastset", "Lastupdated", "Localtime", "Utc"]⟩
    (by simp [specTable]) (by decide)

/-- C3: closed-field invariant. Two snapshots with the same type tag have the
same measurement key set and the same label key set, whatever their state,
config and name fields hold. -/
theorem closed_field_invariant {T : Type} (sprintTime : T → String) (s1 s2 : conbeeSensor T)
    (h : s1.Type_ = s2.Type_) :
    (getStatesForSensor sprintTime s1).1.keySet = (getStatesForSensor sprintTime s2).1.keySet ∧
    (getStatesForSensor sprintTime s1).2.keySet = (getStatesForSensor sprintTime s2).2.keySet := by
  constructor
  · simp only [GoMap.keySet, state_keys_of_type sprintTime s1 s2 h]
  · simp only [GoMap.keySet, label_keys_of_type sprintTime s1 s2 h]

theorem closed_field_invariant_witness :
    (getStatesForSensor (fun t : String => t)
        (mkSensor "door" "ZHAVibration" (zeroState ""))).1.keySet =
      (getStatesForSensor (fun t : String => t)
        (mkSensor "window" "ZHAVibration"
          { zeroState "2023" with
            Vibration := true, Orientation := [1, -2, 3], Tiltangle := 7 })).1.keySet ∧
    (getStatesForSensor (fun t : String => t)
        (mkSensor "door" "ZHAVibration" (zeroState ""))).2.keySet =
      (getStatesForSensor (fun t : String => t)
        (mkSensor "window" "ZHAVibration"
          { zeroState "2023" with
            Vibration := true, Orientation := [1, -2, 3], Tiltangle := 7 })).2.keySet :=
  closed_field_invariant (fun t : String => t) _ _ rfl

/-- C4: a snapshot whose type tag is none of the 17 tags `ZHA` + table name gets
an empty measurement map and an empty label map. -/
theorem unrecognized_type_empty {T : Type} (sprintTime : T → String) (s : conbeeSensor T)
    (h : ∀ r ∈ specTable, s.Type_ ≠ r.tag) :
    getStatesForSensor sprintTime s = ([], []) := by
  simp [specTable, SpecRule.tag] at h
  unfold getStatesForSensor
  split <;> simp_all

theorem unrecognized_type_empty_witness :
    getStatesForSensor (fun t : String => t)
        (mkSensor "a" "" { zeroState "" with Alarm := true }) = ([], []) ∧
    getStatesForSensor (fun t : String => t)
        (mkSensor "b" "zhaalarm" { zeroState "" with Alarm := true }) = ([], []) ∧
    getStatesForSensor (fun t : String => t)
        (mkSensor "c" "Alarm" { zeroState "" with Alarm := true }) = ([], []) :=
  ⟨unrecognized_type_empty _ _ (by simp [specTable, SpecRule.tag, mkSensor]),
   unrecognized_type_empty _ _ (by simp [specTable, SpecRule.tag, mkSensor]),
   unrecognized_type_empty _ _ (by simp [specTable, SpecRule.tag, mkSensor])⟩

/-- C5: `Btoi` maps `true` to 1 and `false` to 0 (and has no other value). -/
theorem Btoi_values :
    Btoi true = 1 ∧ Btoi false = 0 ∧ ∀ b : Bool, Btoi b = if b = true then 1 else 0 := by
  refine ⟨rfl, rfl, ?_⟩
  intro b
  cases b <;> rfl

/-- C6: for a snapshot of type `ZHAAlarm` the measurement map is exactly
`Alarm`, `Lowbattery`, `Tampered` with the `Btoi` of the three state booleans;
with alarm true, lowbattery false, tampered true it is 1, 0, 1. -/
theorem alarm_states {T : Type} (sprintTime : T → String) (s : conbeeSensor T)
    (h : s.Type_ = "ZHAAlarm") :
    (getStatesForSensor sprintTime s).1 =
      [("Alarm", Btoi s.State.Alarm), ("Lowbattery", Btoi s.State.Lowbattery),
        ("Tampered", Btoi s.State.Tampered)] ∧
    (s.State.Alarm = true → s.State.Lowbattery = false → s.State.Tampered = true →
      (getStatesForSensor sprintTime s).1 =
        [("Alarm", 1), ("Lowbattery", 0), ("Tampered", 1)]) := by
  have key : (getStatesForSensor sprintTime s).1 =
      [("Alarm", Btoi s.State.Alarm), ("Lowbattery", Btoi s.State.Lowbattery),
        ("Tampered", Btoi s.State.Tampered)] := by
    simp [getStatesForSensor, h, GoMap.set]
  refine ⟨key, ?_⟩
  intro ha hl ht
  rw [key, ha, hl, ht]
  rfl

theorem alarm_states_witness :
    (getStatesForSensor (fun t : String => t)
        (mkSensor "hall" "ZHAAlarm"
          { zeroState "2023" with Alarm := true, Lowbattery := false, Tampered := true })).1 =
      [("Alarm", 1), ("Lowbattery", 0), ("Tampered", 1)] :=
  (alarm_states (fun t : String => t)
    (mkSensor "hall" "ZHAAlarm"
      { zeroState "2023" with Alarm := true, Lowbattery := false, Tampered := true })
    rfl).2 rfl rfl rfl

/-- C7: for a snapshot of type `ZHATemperature` the measurement map has the one
entry `Temperature`, whose value is the conversion `float64` of the state's
temperature: the temperature itself below `2^53` in absolute value, and 2150
for the temperature 2150. -/
theorem temperature_states {T : Type} (sprintTime : T → String) (s : conbeeSensor T)
    (h : s.Type_ = "ZHATemperature") :
    (getStatesForSensor sprintTime s).1 = [("Temperature", float64 s.State.Temperature)] ∧
    (s.State.Temperature.natAbs < 2 ^ 53 →
      (getStatesForSensor sprintTime s).1 = [("Temperature", s.State.Temperature)]) ∧
    (s.State.Temperature = 2150 →
      (getStatesForSensor sprintTime s).1 = [("Temperature", 2150)]) := by
  have key : (getStatesForSensor sprintTime s).1 =
      [("Temperature", float64 s.State.Temperature)] := by
    simp [getStatesForSensor, h, GoMap.set]
  refine ⟨key, ?_, ?_⟩
  · intro hb
    rw [key, float64_of_small _ hb]
  · intro ht
    rw [key, ht]
    rfl

theorem temperature_states_witness :
    (getStatesForSensor (fun t : String => t)
        (mkSensor "attic" "ZHATemperature"
          { zeroState "2023-01-01T00:00:00" with Temperature := 2150 })).1 =
      [("Temperature", 2150)] :=
  (temperature_states (fun t : String => t)
    (mkSensor "attic" "ZHATemperature"
      { zeroState "2023-01-01T00:00:00" with Temperature := 2150 })
    rfl).2.2 rfl

/-- C9: zero-value policy. For a snapshot of a known type whose state fields
are all at their zero value, every measurement name of that type's line of the
table is present in the measurement map, with value 0. -/
theorem zero_state_measurements {T : Type} (sprintTime : T → String) (t0 : T)
    (s : conbeeSensor T) (r : SpecRule) (hr : r ∈ specTable) (ht : s.Type_ = r.tag)
    (hs : s.State = zeroState t0) :
    ∀ k ∈ r.measurements, (getStatesForSensor sprintTime s).1.get? k = some 0 := by
  simp only [specTable] at hr
  fin_cases hr <;> simp [SpecRule.tag] at ht <;>
    simp [getStatesForSensor, ht, hs, zeroState, GoMap.set, GoMap.get?, Btoi, float64,
      roundNat53]

theorem zero_state_measurements_witness :
    (getStatesForSensor (fun t : String => t)
        (mkSensor "remote" "ZHASwitch" (zeroState ""))).1.get? "Buttonevent" = some 0 ∧
    (getStatesForSensor (fun t : String => t)
        (mkSensor "remote" "ZHASwitch" (zeroState ""))).1.get? "Angle" = some 0 :=
  have h := zero_state_measurements (fun t : String => t) ""
    (mkSensor "remote" "ZHASwitch" (zeroState ""))
    ⟨"Switch", ["Buttonevent", "Gesture", "Eventduration", "X", "Y", "Angle"], ["Lastupdated"]⟩
    (by simp [specTable]) (by decide) rfl
  ⟨h "Buttonevent" (by simp), h "Angle" (by simp)⟩

/-- C10: for every sensor, of known or unknown type, the label map used for
publishing maps `Name` to the sensor's name and `Type` to its type tag, and
keeps every label returned by `getStatesForSensor` with its value; every gauge
call `getAllSensorStates` makes for a sensor of the fetched map carries that
label map. -/
theorem published_labels_name_type {T : Type} (sprintTime : T → String) (ID : String)
    (s : conbeeSensor T) :
    (publishedLabels sprintTime s).get? "Name" = some s.Name ∧
    (publishedLabels sprintTime s).get? "Type" = some s.Type_ ∧
    (∀ k v, (getStatesForSensor sprintTime s).2.get? k = some v →
      (publishedLabels sprintTime s).get? k = some v) ∧
    (∀ (allSensors : List (String × conbeeSensor T)) (err : Option String),
      (ID, s) ∈ allSensors → ∀ c ∈ sensorGaugeCalls sprintTime ID s,
        c ∈ getAllSensorStates sprintTime allSensors err ∧
        c.labels = publishedLabels sprintTime s) := by
  refine ⟨?_, ?_, ?_, ?_⟩
  · unfold publishedLabels
    simp only []
    rw [GoMap.get?_set_of_ne _ "Type" "Name" _ (by decide), GoMap.get?_set_self]
  · unfold publishedLabels
    simp only []
    rw [GoMap.get?_set_self]
  · intro k v hk
    have hN : k ≠ "Name" := by
      rintro rfl
      rw [labels_get?_Name] at hk
      cases hk
    have hT : k ≠ "Type" := by
      rintro rfl
      rw [labels_get?_Type] at hk
      cases hk
    unfold publishedLabels
    simp only []
    rw [GoMap.get?_set_of_ne _ "Type" k _ (Ne.symm hT),
      GoMap.get?_set_of_ne _ "Name" k _ (Ne.symm hN)]
    exact hk
  · intro allSensors err hmem c hc
    refine ⟨?_, ?_⟩
    · unfold getAllSensorStates
      exact List.mem_flatMap.mpr ⟨(ID, s), hmem, hc⟩
    · simp only [sensorGaugeCalls, List.mem_map] at hc
      obtain ⟨kv, _, rfl⟩ := hc
      rfl

theorem published_labels_name_type_witness :
    (publishedLabels (fun t : String => t)
        (mkSensor "attic" "ZHATemperature"
          { zeroState "noon" with Temperature := 2150 })).get? "Name" = some "attic" ∧
    (publishedLabels (fun t : String => t)
        (mkSensor "attic" "ZHATemperature"
          { zeroState "noon" with Temperature := 2150 })).get? "Type" =
      some "ZHATemperature" ∧
    (publishedLabels (fun t : String => t)
        (mkSensor "attic" "ZHATemperature"
          { zeroState "noon" with Temperature := 2150 })).get? "Lastupdated" = some "noon" :=
  have h := published_labels_name_type (fun t : String => t) "7"
    (mkSensor "attic" "ZHATemperature" { zeroState "noon" with Temperature := 2150 })
  ⟨h.1, h.2.1, h.2.2.1 "Lastupdated" "noon" (by decide)⟩

/-- C11: over a fetched map with pairwise distinct sensor IDs, the gauge calls
`getAllSensorStates` makes with subsystem `ID` are exactly the calls of the
sensor `(ID, s)`: one per entry of its measurement map, with that entry's name
and value, namespace `conbee`, subsystem `ID`, the keys of the augmented label
map as label names, and that label map; a sensor of unrecognized type gets no
call. -/
theorem publish_step_calls {T : Type} (sprintTime : T → String) (ID : String)
    (s : conbeeSensor T) (allSensors : List (String × conbeeSensor T)) (err : Option String)
    (hnd : (allSensors.map Prod.fst).Nodup) (hmem : (ID, s) ∈ allSensors) :
    (getAllSensorStates sprintTime allSensors err).filter
        (fun c => decide (c.Subsystem = ID)) = sensorGaugeCalls sprintTime ID s ∧
    (sensorGaugeCalls sprintTime ID s).map (fun c => (c.Name, c.value)) =
      (getStatesForSensor sprintTime s).1 ∧
    (∀ c ∈ sensorGaugeCalls sprintTime ID s,
      c.Namespace = "conbee" ∧ c.Subsystem = ID ∧
      c.labelNames.toFinset = (publishedLabels sprintTime s).keySet ∧
      c.labels = publishedLabels sprintTime s) ∧
    ((∀ r ∈ specTable, s.Type_ ≠ r.tag) → sensorGaugeCalls sprintTime ID s = []) := by
  refine ⟨filter_all_of_mem sprintTime ID s allSensors err hnd hmem, ?_, ?_, ?_⟩
  · simp [sensorGaugeCalls, Function.comp_def]
  · intro c hc
    simp only [sensorGaugeCalls, List.mem_map] at hc
    obtain ⟨kv, _, rfl⟩ := hc
    exact ⟨rfl, rfl, rfl, rfl⟩
  · intro h
    have h0 : getStatesForSensor sprintTime s = ([], []) := by
      simp [specTable, SpecRule.tag] at h
      unfold getStatesForSensor
      split <;> simp_all
    simp [sensorGaugeCalls, h0]

theorem publish_step_calls_witness :
    (getAllSensorStates (fun t : String => t)
        [("1", mkSensor "attic" "ZHATemperature" { zeroState "noon" with Temperature := 2150 }),
         ("2", mkSensor "lamp" "ZHALight" (zeroState ""))] none).filter
        (fun c => decide (c.Subsystem = "1")) =
      [{ Namespace := "conbee", Subsystem := "1", Name := "Temperature",
         labelNames := ["Lastupdated", "Name", "Type"],
         labels := [("Lastupdated", "noon"), ("Name", "attic"), ("Type", "ZHATemperature")],
         value := 2150 }] :=
  (publish_step_calls (fun t : String => t) "1"
    (mkSensor "attic" "ZHATemperature" { zeroState "noon" with Temperature := 2150 })
    [("1", mkSensor "attic" "ZHATemperature" { zeroState "noon" with Temperature := 2150 }),
     ("2", mkSensor "lamp" "ZHALight" (zeroState ""))] none
    (by decide) (by simp)).1.trans (by rfl)

/-- C12, the code at the failing input: `getJson` returned an error and left
one decoded sensor in the map; `getAllSensorStates` logs the error and still
makes the gauge call for that sensor. -/
theorem error_cycle_still_publishes :
    getAllSensorStates (fun t : String => t)
        [("1", mkSensor "attic" "ZHATemperature" { zeroState "noon" with Temperature := 2150 })]
        (some "json: cannot unmarshal string into Go struct field of type int") =
      [{ Namespace := "conbee", Subsystem := "1", Name := "Temperature",
         labelNames := ["Lastupdated", "Name", "Type"],
         labels := [("Lastupdated", "noon"), ("Name", "attic"), ("Type", "ZHATemperature")],
         value := 2150 }] := by
  rfl

/-- C14: with the API key set, no `-conbee-uri` given and the discovery request
answered, a non-empty decoded result list makes the gateway address
`<internalipaddress>:<internalport>` of its first element, whatever the later
elements and the parse error are, and an empty list ends startup in the fatal
"No conbees found" with no address. -/
theorem discovery_selects_first (apiKey : String) (first : discoverResult)
    (rest : List discoverResult) (parseErr : Option String) (hk : apiKey ≠ "") :
    main "" apiKey none none (first :: rest) parseErr =
      Startup.started
        (first.Internalipaddress ++ ":" ++ sprintInt first.Internalport) ∧
    main "" apiKey none none [] parseErr = Startup.fatalNoConbee := by
  simp [main, hk, sprintfHostPort]

theorem discovery_selects_first_witness :
    main "" "0123456789" none none
        [⟨"192.168.1.20", 8080, "Phoscon-GW"⟩, ⟨"10.0.0.7", 80, "other"⟩] none =
      Startup.started "192.168.1.20:8080" ∧
    main "" "0123456789" none none [] (some "unexpected end of JSON input") =
      Startup.fatalNoConbee :=
  ⟨(discovery_selects_first "0123456789" ⟨"192.168.1.20", 8080, "Phoscon-GW"⟩
      [⟨"10.0.0.7", 80, "other"⟩] none (by decide)).1.trans (by decide),
   (discovery_selects_first "0123456789" ⟨"192.168.1.20", 8080, "Phoscon-GW"⟩
      [] (some "unexpected end of JSON input") (by decide)).2⟩

/-- C16: for a snapshot of type `ZHAVibration` the `Orientation` label is `[`,
the decimal renderings of the orientation array separated by single spaces,
`]`; an empty array gives `[]`. -/
theorem orientation_label {T : Type} (sprintTime : T → String) (s : conbeeSensor T)
    (h : s.Type_ = "ZHAVibration") :
    (getStatesForSensor sprintTime s).2.get? "Orientation" =
      some ("[" ++ " ".intercalate (s.State.Orientation.map sprintInt) ++ "]") ∧
    (s.State.Orientation = [] →
      (getStatesForSensor sprintTime s).2.get? "Orientation" = some "[]") := by
  have key : (getStatesForSensor sprintTime s).2.get? "Orientation" =
      some ("[" ++ " ".intercalate (s.State.Orientation.map sprintInt) ++ "]") := by
    simp [getStatesForSensor, h, GoMap.set, GoMap.get?, sprintIntSlice]
  refine ⟨key, ?_⟩
  intro he
  rw [key, he]
  rfl

theorem orientation_label_witness :
    (getStatesForSensor (fun t : String => t)
        (mkSensor "door" "ZHAVibration"
          { zeroState "2023" with Orientation := [1, -2, 30] })).2.get? "Orientation" =
      some "[1 -2 30]" ∧
    (getStatesForSensor (fun t : String => t)
        (mkSensor "door" "ZHAVibration" (zeroState "2023"))).2.get? "Orientation" =
      some "[]" :=
  ⟨(orientation_label (fun t : String => t)
      (mkSensor "door" "ZHAVibration" { zeroState "2023" with Orientation := [1, -2, 30] })
      rfl).1.trans (by decide),
   (orientation_label (fun t : String => t)
      (mkSensor "door" "ZHAVibration" (zeroState "2023")) rfl).2 rfl⟩

/-- C17: the label map returned by `getStatesForSensor` has neither the key
`Name` nor the key `Type`; the caller's two entries overwrite no label, and the
published label map has the mapper's keys and these two, two keys more. -/
theorem labels_without_name_type {T : Type} (sprintTime : T → String) (s : conbeeSensor T) :
    "Name" ∉ (getStatesForSensor sprintTime s).2.keySet ∧
    "Type" ∉ (getStatesForSensor sprintTime s).2.keySet ∧
    (∀ k ∈ (getStatesForSensor sprintTime s).2.keySet,
      (publishedLabels sprintTime s).get? k = (getStatesForSensor sprintTime s).2.get? k) ∧
    (publishedLabels sprintTime s).keySet =
      (getStatesForSensor sprintTime s).2.keySet ∪ {"Name", "Type"} ∧
    (publishedLabels sprintTime s).keySet.card =
      (getStatesForSensor sprintTime s).2.keySet.card + 2 := by
  have hN : "Name" ∉ (getStatesForSensor sprintTime s).2.keys :=
    (GoMap.get?_eq_none_iff _ _).mp (labels_get?_Name sprintTime s)
  have hT : "Type" ∉ (getStatesForSensor sprintTime s).2.keys :=
    (GoMap.get?_eq_none_iff _ _).mp (labels_get?_Type sprintTime s)
  refine ⟨by simpa [GoMap.keySet] using hN, by simpa [GoMap.keySet] using hT, ?_, ?_, ?_⟩
  · intro k hk
    exact publishedLabels_get?_of_mem sprintTime s k (by simpa [GoMap.keySet] using hk)
  · simp only [GoMap.keySet, publishedLabels_keys, List.toFinset_append]
    rfl
  · simp only [GoMap.keySet]
    rw [List.toFinset_card_of_nodup (publishedLabels_keys_nodup sprintTime s),
      List.toFinset_card_of_nodup (label_keys_nodup sprintTime s), publishedLabels_keys]
    simp

/-- C18: among the 17 known type tags the measurement map is empty exactly for
`ZHATime`; a `ZHATime` sensor, with its four labels, gets no gauge call from
`getAllSensorStates`. -/
theorem time_rule_only_empty {T : Type} (sprintTime : T → String) (s : conbeeSensor T)
    (r : SpecRule) (hr : r ∈ specTable) (ht : s.Type_ = r.tag) :
    ((getStatesForSensor sprintTime s).1 = [] ↔ s.Type_ = "ZHATime") ∧
    (s.Type_ = "ZHATime" →
      (getStatesForSensor sprintTime s).2.keys.length = 4 ∧
      ∀ (ID : String) (allSensors : List (String × conbeeSensor T)) (err : Option String),
        (allSensors.map Prod.fst).Nodup → (ID, s) ∈ allSensors →
        (getAllSensorStates sprintTime allSensors err).filter
          (fun c => decide (c.Subsystem = ID)) = []) := by
  have hiff : (getStatesForSensor sprintTime s).1 = [] ↔ s.Type_ = "ZHATime" := by
    simp only [specTable] at hr
    fin_cases hr <;> simp [SpecRule.tag] at ht <;> simp [getStatesForSensor, ht, GoMap.set]
  refine ⟨hiff, ?_⟩
  intro htime
  refine ⟨by simp [getStatesForSensor, htime, GoMap.set, GoMap.keys], ?_⟩
  intro ID allSensors err hnd hmem
  rw [filter_all_of_mem sprintTime ID s allSensors err hnd hmem]
  simp [sensorGaugeCalls, hiff.mpr htime]

theorem time_rule_only_empty_witness :
    ((getStatesForSensor (fun t : String => t)
        (mkSensor "clock" "ZHATime" (zeroState "noon"))).1 = [] ↔
      (mkSensor "clock" "ZHATime" (zeroState "noon")).Type_ = "ZHATime") ∧
    ((getStatesForSensor (fun t : String => t)
        (mkSensor "hall" "ZHAAlarm" (zeroState "noon"))).1 = [] ↔
      (mkSensor "hall" "ZHAAlarm" (zeroState "noon")).Type_ = "ZHATime") :=
  ⟨(time_rule_only_empty (fun t : String => t) (mkSensor "clock" "ZHATime" (zeroState "noon"))
      ⟨"Time", [], ["Lastset", "Lastupdated", "Localtime", "Utc"]⟩
      (by simp [specTable]) (by decide)).1,
   (time_rule_only_empty (fun t : String => t) (mkSensor "hall" "ZHAAlarm" (zeroState "noon"))
      ⟨"Alarm", ["Alarm", "Lowbattery", "Tampered"], ["Lastupdated"]⟩
      (by simp [specTable]) (by decide)).1⟩

/-- C19: two snapshots with the same type tag that agree on the state fields
read by that type's rule get equal measurement and label maps, whatever their
other fields (name, etag, config, the remaining state fields) hold. -/
theorem unused_fields_noninterference {T : Type} (sprintTime : T → String)
    (s1 s2 : conbeeSensor T) (ht : s1.Type_ = s2.Type_)
    (hs : readFieldsAgree s1.Type_ s1.State s2.State) :
    getStatesForSensor sprintTime s1 = getStatesForSensor sprintTime s2 := by
  unfold getStatesForSensor
  rw [ht] at hs ⊢
  unfold readFieldsAgree at hs
  split <;> simp_all

theorem unused_fields_noninterference_witness :
    getStatesForSensor (fun t : String => t)
        (mkSensor "hall" "ZHAAlarm" { zeroState "2023" with Alarm := true }) =
      getStatesForSensor (fun t : String => t)
        { Name := "cellar", Etag := "abc", Manufacturername := "acme", Modelid := "m1",
          Swversion := "2", Type_ := "ZHAAlarm", Uniqueid := "00:11",
          State := { zeroState "2023" with
            Alarm := true, Temperature := 2150, Fire := true, Utc := "later",
            Orientation := [1, 2] },
          Config := { zeroConfig with Battery := 80, On := true, Reachable := true } } :=
  unused_fields_noninterference (fun t : String => t)
    (mkSensor "hall" "ZHAAlarm" { zeroState "2023" with Alarm := true })
    { Name := "cellar", Etag := "abc", Manufacturername := "acme", Modelid := "m1",
      Swversion := "2", Type_ := "ZHAAlarm", Uniqueid := "00:11",
      State := { zeroState "2023" with
        Alarm := true, Temperature := 2150, Fire := true, Utc := "later",
        Orientation := [1, 2] },
      Config := { zeroConfig with Battery := 80, On := true, Reachable := true } }
    rfl (by decide)

/-- C20: over a sensor map with pairwise distinct sensor IDs, the gauge
identities (namespace, subsystem, name) of the calls `getAllSensorStates` makes
are pairwise distinct, and so are their (sensor ID, measurement name) pairs. -/
theorem gauge_identities_distinct {T : Type} (sprintTime : T → String)
    (allSensors : List (String × conbeeSensor T)) (err : Option String)
    (hnd : (allSensors.map Prod.fst).Nodup) :
    ((getAllSensorStates sprintTime allSensors err).map GaugeCall.identity).Nodup ∧
    ((getAllSensorStates sprintTime allSensors err).map
      (fun c => (c.Subsystem, c.Name))).Nodup := by
  have hid : ((getAllSensorStates sprintTime allSensors err).map GaugeCall.identity).Nodup := by
    induction allSensors with
    | nil => simp [getAllSensorStates]
    | cons p rest ih =>
      simp only [List.map_cons, List.nodup_cons] at hnd
      have hsplit : getAllSensorStates sprintTime (p :: rest) err =
          sensorGaugeCalls sprintTime p.1 p.2 ++ getAllSensorStates sprintTime rest err := by
        simp [getAllSensorStates]
      rw [hsplit, List.map_append, List.nodup_append]
      refine ⟨sensorGaugeCalls_identity_nodup sprintTime p.1 p.2, ih hnd.2, ?_⟩
      intro i h1 h2
      obtain ⟨c1, hc1, rfl⟩ := List.mem_map.mp h1
      obtain ⟨c2, hc2, he⟩ := List.mem_map.mp h2
      have hs1 := sensorGaugeCalls_subsystem sprintTime p.1 p.2 c1 hc1
      have hs2 := getAllSensorStates_subsystem_mem sprintTime rest err c2 hc2
      have hsub : c2.Subsystem = c1.Subsystem := by
        simp only [GaugeCall.identity, Prod.mk.injEq] at he
        exact he.2.1
      rw [hsub, hs1] at hs2
      exact hnd.1 hs2
  refine ⟨hid, ?_⟩
  have hcomp : (getAllSensorStates sprintTime allSensors err).map
      (fun c => (c.Subsystem, c.Name)) =
      ((getAllSensorStates sprintTime allSensors err).map GaugeCall.identity).map Prod.snd := by
    simp [GaugeCall.identity, Function.comp_def]
  rw [hcomp]
  refine List.Nodup.map_on ?_ hid
  intro a ha b hb hab
  obtain ⟨c1, hc1, rfl⟩ := List.mem_map.mp ha
  obtain ⟨c2, hc2, rfl⟩ := List.mem_map.mp hb
  have hn : ∀ c ∈ getAllSensorStates sprintTime allSensors err, c.Namespace = promNamespace := by
    intro c hc
    unfold getAllSensorStates at hc
    obtain ⟨q, _, hcq⟩ := List.mem_flatMap.mp hc
    simp only [sensorGaugeCalls, List.mem_map] at hcq
    obtain ⟨kv, _, rfl⟩ := hcq
    rfl
  simp only [GaugeCall.identity] at hab ⊢
  rw [hn c1 hc1, hn c2 hc2, hab]

theorem gauge_identities_distinct_witness :
    ((getAllSensorStates (fun t : String => t)
        [("1", mkSensor "hall" "ZHAAlarm" (zeroState "a")),
         ("2", mkSensor "door" "ZHAAlarm" (zeroState "b"))] none).map
      GaugeCall.identity).Nodup :=
  (gauge_identities_distinct (fun t : String => t)
    [("1", mkSensor "hall" "ZHAAlarm" (zeroState "a")),
     ("2", mkSensor "door" "ZHAAlarm" (zeroState "b"))] none (by decide)).1

end Conbee
